import Mathlib

/-!
Shallow embedding of the RCS server's connection-multiplexing core
(`src/robots/robot-connection.service.ts`), its socket gateway
(`src/gateway/robot-control.gateway.ts`) and the transparent relay
(`src/gateway/ros-proxy.service.ts`), with theorems settling the
spec's claims about them.

JavaScript `Map` objects are embedded as association lists with
`mapSet`/`mapGet`/`mapDelete` (a `Map` never holds two bindings for one
key, and `set` updates in place). Wall-clock fields (`lastSeen`,
timestamps in emitted events) are omitted: no claim mentions them.
Numbers appearing in motion payloads are embedded as rationals; every
operation the code performs on them (multiplication by the literal 1.0
and negation) is exact in IEEE double precision, so the rational
semantics coincides with the JavaScript one on these paths.
-/

namespace RCS

/-- JavaScript `Map.get`: the value bound to `k`, if any. -/
def mapGet {α : Type} (m : List (String × α)) (k : String) : Option α :=
  match m with
  | [] => none
  | (k', v) :: rest => if k' = k then some v else mapGet rest k

/-- JavaScript `Map.set`: update the binding for `k` in place, or append it. -/
def mapSet {α : Type} (m : List (String × α)) (k : String) (v : α) :
    List (String × α) :=
  match m with
  | [] => [(k, v)]
  | (k', v') :: rest =>
      if k' = k then (k', v) :: rest else (k', v') :: mapSet rest k v

/-- JavaScript `Map.delete`: remove the binding for `k`. -/
def mapDelete {α : Type} (m : List (String × α)) (k : String) :
    List (String × α) :=
  m.filter (fun kv => kv.1 ≠ k)

theorem mapGet_mapSet_self {α : Type} (m : List (String × α)) (k : String)
    (v : α) : mapGet (mapSet m k v) k = some v := by
  induction m with
  | nil => simp [mapSet, mapGet]
  | cons hd tl ih =>
      obtain ⟨k', v'⟩ := hd
      by_cases h : k' = k <;> simp [mapSet, mapGet, h, ih]

theorem mapGet_mapSet_ne {α : Type} (m : List (String × α)) {k k' : String}
    (v : α) (h : k' ≠ k) : mapGet (mapSet m k' v) k = mapGet m k := by
  induction m with
  | nil => simp [mapSet, mapGet, h]
  | cons hd tl ih =>
      obtain ⟨k'', v''⟩ := hd
      by_cases h2 : k'' = k'
      · subst h2; simp [mapSet, mapGet, h]
      · simp [mapSet, mapGet, h2, ih]

theorem mapGet_mapDelete_self {α : Type} (m : List (String × α))
    (k : String) : mapGet (mapDelete m k) k = none := by
  induction m with
  | nil => simp [mapDelete, mapGet]
  | cons hd tl ih =>
      obtain ⟨k', v'⟩ := hd
      by_cases h : k' = k
      · subst h
        simpa [mapDelete, mapGet] using ih
      · simpa [mapDelete, mapGet, h] using ih

/-- A 3-vector as appears in `geometry_msgs/Twist` (`{ x, y, z }`). -/
structure Vec3 where
  x : ℚ
  y : ℚ
  z : ℚ
deriving DecidableEq, Repr

/-- A `geometry_msgs/Twist` motion payload: linear and angular 3-vectors. -/
structure Twist where
  linear : Vec3
  angular : Vec3
deriving DecidableEq, Repr

/-- A `ROSLIB.Ros` transport handle. `id` identifies the underlying object;
`isConnected` is roslib's own connectivity flag (checked by the relay);
`hasSocket` records whether `(ros as any).socket` is non-null. -/
structure Ros where
  id : Nat
  isConnected : Bool
  hasSocket : Bool
deriving DecidableEq, Repr

/-- A `ROSLIB.Topic` object created by the service; `tid` identifies the
object so that handle reuse vs. re-creation is observable. -/
structure Topic where
  tid : Nat
  name : String
  messageType : String
deriving DecidableEq, Repr

/-- The `RobotConnection` record stored in the service's `connections` map:
`{ ros, topics, isConnected, lastSeen }` (`lastSeen` omitted, wall clock). -/
structure RobotConnection where
  ros : Ros
  topics : List (String × Topic)
  isConnected : Bool
deriving DecidableEq, Repr

/-- Status values passed to a registered connection callback. -/
inductive Status where
  | connected
  | disconnected
  | error
deriving DecidableEq, Repr

/-- One invocation of a registered status callback: which robot's callback
(`robotId`), the callback's identity (`cbId`), and the status delivered. -/
structure StatusRec where
  robotId : String
  cbId : Nat
  status : Status
deriving DecidableEq, Repr

/-- One `topic.publish(...)` that reached the transport: transport id, topic
name, the `ROSLIB.Topic` object used, and the payload. -/
structure Pub where
  rosId : Nat
  topicName : String
  tid : Nat
  payload : Twist
deriving DecidableEq, Repr

/-- State of a `RobotConnectionService` instance together with the
observable effects on its transports.

* `connections`, `connectionCallbacks` are the service's two `Map` fields
  (a callback is identified by a `Nat`; `Map.set` gives last-wins).
* `nextId` supplies fresh identities for `ROSLIB.Ros`/`ROSLIB.Topic`
  objects as `new` allocates them.
* `openedTransports` lists every transport the service opened
  (`new ROSLIB.Ros({url})`), `closedTransports` every `ros.close()` issued.
* `armed` records each `topic.subscribe(cb)` as `(rosId, topicName, cbId)`:
  roslib keeps every such subscription live on the transport until the
  matching `Topic` object's `unsubscribe` is called.
* `published` records each publish sent, `statusEvents` each status-callback
  invocation, in order. -/
structure SvcState where
  connections : List (String × RobotConnection)
  connectionCallbacks : List (String × Nat)
  nextId : Nat
  openedTransports : List Nat
  closedTransports : List Nat
  armed : List (Nat × String × Nat)
  published : List Pub
  statusEvents : List StatusRec
deriving DecidableEq, Repr

/-- `onConnectionStatusChange(robotId, callback)`: `connectionCallbacks.set`
(a later registration for the same robot overwrites the earlier one). -/
def onConnectionStatusChange (s : SvcState) (robotId : String) (cbId : Nat) :
    SvcState :=
  { s with connectionCallbacks := mapSet s.connectionCallbacks robotId cbId }

/-- The handler bodies all start with
`const callback = this.connectionCallbacks.get(robotId); if (callback) callback(st);`
— invoke the registered callback for `robotId`, if any. -/
def fireCallback (s : SvcState) (robotId : String) (st : Status) : SvcState :=
  match mapGet s.connectionCallbacks robotId with
  | some cb =>
      { s with statusEvents := s.statusEvents ++ [⟨robotId, cb, st⟩] }
  | none => s

/-- Events the `ROSLIB.Ros` transport can emit; `connectToRobot` registers a
handler for each of `'connection'`, `'error'` and `'close'`. -/
inductive TransportEvent where
  | connection
  | error
  | close
deriving DecidableEq, Repr

/-- Outcome of the synchronous part of `connectToRobot`: either the robot is
already in `connections` and the promise resolves `true` at once, or a fresh
`ROSLIB.Ros` was constructed and its event handlers armed. -/
inductive ConnectStart where
  | alreadyConnected
  | started (ros : Ros)
deriving DecidableEq, Repr

/-- `connectToRobot(robotId, rosUrl)` up to its first suspension: the
`connections.has(robotId)` early return, else `new ROSLIB.Ros({ url })` and
handler registration. The transport starts unconnected; its socket exists. -/
def connectToRobot (s : SvcState) (robotId : String) : SvcState × ConnectStart :=
  if (mapGet s.connections robotId).isSome then
    (s, .alreadyConnected)
  else
    let ros : Ros := { id := s.nextId, isConnected := false, hasSocket := true }
    ({ s with
        nextId := s.nextId + 1,
        openedTransports := s.openedTransports ++ [ros.id] },
      .started ros)

/-- The three handlers `connectToRobot` registers on `ros`, as written:

* `'connection'`: build the `RobotConnection` record, `connections.set`,
  fire the callback with `'connected'`, `resolve(true)`;
* `'error'`: fire the callback with `'error'`, `resolve(false)`;
* `'close'`: if a record exists set its `isConnected` to false, fire the
  callback with `'disconnected'`, `connections.delete`.

The returned `Option Bool` is the value passed to `resolve` (a JavaScript
promise keeps only the first resolution). -/
def handleRosEvent (s : SvcState) (robotId : String) (ros : Ros) :
    TransportEvent → SvcState × Option Bool
  | .connection =>
      let conn : RobotConnection :=
        { ros := { ros with isConnected := true }, topics := [],
          isConnected := true }
      let s := { s with connections := mapSet s.connections robotId conn }
      (fireCallback s robotId .connected, some true)
  | .error =>
      (fireCallback s robotId .error, some false)
  | .close =>
      let s :=
        match mapGet s.connections robotId with
        | some c =>
            { s with connections :=
                mapSet s.connections robotId { c with isConnected := false } }
        | none => s
      let s := fireCallback s robotId .disconnected
      ({ s with connections := mapDelete s.connections robotId }, none)

/-- Run a sequence of transport events through the armed handlers. -/
def runEvents (s : SvcState) (robotId : String) (ros : Ros) :
    List TransportEvent → SvcState
  | [] => s
  | ev :: rest => runEvents (handleRosEvent s robotId ros ev).1 robotId ros rest

/-- `disconnectFromRobot(robotId)`: if a connection exists, `ros.close()`
and `connections.delete(robotId)`; nothing otherwise. -/
def disconnectFromRobot (s : SvcState) (robotId : String) : SvcState :=
  match mapGet s.connections robotId with
  | some c =>
      { s with
          closedTransports := s.closedTransports ++ [c.ros.id],
          connections := mapDelete s.connections robotId }
  | none => s

/-- `isRobotConnected(robotId)`: `connections.get(robotId)?.isConnected || false`. -/
def isRobotConnected (s : SvcState) (robotId : String) : Bool :=
  match mapGet s.connections robotId with
  | some c => c.isConnected
  | none => false

/-- `getRosInstance(robotId)`: `connections.get(robotId)?.ros` (the accessor
the relay uses to reach a robot's transport). -/
def getRosInstance (s : SvcState) (robotId : String) : Option Ros :=
  (mapGet s.connections robotId).map (fun c => c.ros)

/-- `publishCmdVel(robotId, linear, angular)`: warn-and-return unless a
connected record exists; lazily create and store the `'web/cmd_vel'` topic
handle on first use; publish the twist through the handle. -/
def publishCmdVel (s : SvcState) (robotId : String) (linear angular : Vec3) :
    SvcState :=
  match mapGet s.connections robotId with
  | none => s
  | some c =>
      if !c.isConnected then s
      else
        match mapGet c.topics "web/cmd_vel" with
        | some t =>
            { s with published := s.published ++
                [⟨c.ros.id, "web/cmd_vel", t.tid, ⟨linear, angular⟩⟩] }
        | none =>
            let t : Topic :=
              { tid := s.nextId, name := "web/cmd_vel",
                messageType := "geometry_msgs/Twist" }
            { s with
                nextId := s.nextId + 1,
                connections := mapSet s.connections robotId
                  { c with topics := mapSet c.topics "web/cmd_vel" t },
                published := s.published ++
                  [⟨c.ros.id, "web/cmd_vel", t.tid, ⟨linear, angular⟩⟩] }

/-- `subscribeToTopic(robotId, topicName, messageType, callback)`:
warn-and-return unless a connected record exists; otherwise construct a
fresh `ROSLIB.Topic`, `topic.subscribe(...)` (arming `cb` on the transport)
and `connection.topics.set(topicName, topic)` — the method performs no
already-subscribed check. -/
def subscribeToTopic (s : SvcState) (robotId topicName messageType : String)
    (cb : Nat) : SvcState :=
  match mapGet s.connections robotId with
  | none => s
  | some c =>
      if !c.isConnected then s
      else
        let t : Topic := { tid := s.nextId, name := topicName, messageType }
        { s with
            nextId := s.nextId + 1,
            armed := s.armed ++ [(c.ros.id, topicName, cb)],
            connections := mapSet s.connections robotId
              { c with topics := mapSet c.topics topicName t } }

/-- roslib-side demultiplexing: an inbound message on `topic` of transport
`rosId` invokes every callback armed by a `subscribe` on that transport and
topic, in arming order. Returns the callbacks invoked. -/
def dispatchMessage (s : SvcState) (rosId : Nat) (topic : String) : List Nat :=
  (s.armed.filter (fun e => e.1 = rosId ∧ e.2.1 = topic)).map (fun e => e.2.2)

/-- A JSON value as occurs in mode-service requests (strings and numbers
suffice for the fields the gateway sends). -/
inductive JVal where
  | str : String → JVal
  | num : ℚ → JVal
deriving DecidableEq, Repr

/-- The object literal `{ command, ...params }` inside `callModeService`:
start from an object whose sole property is `command` bound to the
`command` argument, then spread `params` over it — in JavaScript each
spread property assigns in order, overwriting an existing key in place. -/
def buildRequestData (command : String) (params : List (String × JVal)) :
    List (String × JVal) :=
  params.foldl (fun m kv => mapSet m kv.1 kv.2) [("command", JVal.str command)]

/-- Outcome of the synchronous part of `callModeService`: the
not-connected guard throws (in an `async` function: the returned promise
rejects) before any `ROSLIB.Service` is constructed; otherwise a service
object for `/mode/req` is created and the serialized request is sent. -/
inductive CallStart where
  | thrownNotConnected
  | requestSent (serviceName : String) (requestData : List (String × JVal))
deriving DecidableEq, Repr

/-- `callModeService(robotId, command, params)` up to the transport send:
guard `!connection || !connection.isConnected` throws; else build
`requestData = JSON.stringify({ command, ...params })` and call the
`/mode/req` service with it. -/
def callModeService (s : SvcState) (robotId command : String)
    (params : List (String × JVal)) : SvcState × CallStart :=
  match mapGet s.connections robotId with
  | none => (s, .thrownNotConnected)
  | some c =>
      if !c.isConnected then (s, .thrownNotConnected)
      else (s, .requestSent "/mode/req" (buildRequestData command params))

/-! ### Gateway (`robot-control.gateway.ts`) -/

/-- Events the gateway emits back over socket.io while handling a motion
command: the `robot:error` not-connected reply, or a `robot:log` line (one
constructor per distinct log message; numeric arguments carried as data). -/
inductive Emit where
  | errNotConnected (robotId : String)
  | logJoystick (robotId : String) (x y : ℚ)
  | logStop (robotId : String)
  | logEmergency (robotId : String)
deriving DecidableEq, Repr

/-- The constant `MAX_LINEAR_SPEED = 1.0` in `handleJoystick`. -/
def MAX_LINEAR_SPEED : ℚ := 1

/-- `handleJoystick({robotId, x, y})`: reject if not connected, else publish
`linear = (y * MAX_LINEAR_SPEED, -x * MAX_LINEAR_SPEED, 0)`,
`angular = (0, 0, 0)` and log the input. -/
def handleJoystick (s : SvcState) (robotId : String) (x y : ℚ) :
    SvcState × List Emit :=
  if !isRobotConnected s robotId then
    (s, [.errNotConnected robotId])
  else
    let linear : Vec3 := ⟨y * MAX_LINEAR_SPEED, -x * MAX_LINEAR_SPEED, 0⟩
    let angular : Vec3 := ⟨0, 0, 0⟩
    (publishCmdVel s robotId linear angular, [.logJoystick robotId x y])

/-- `handleStop({robotId})`: reject if not connected, else publish the zero
twist and log `'Robot stopped'`. -/
def handleStop (s : SvcState) (robotId : String) : SvcState × List Emit :=
  if !isRobotConnected s robotId then
    (s, [.errNotConnected robotId])
  else
    (publishCmdVel s robotId ⟨0, 0, 0⟩ ⟨0, 0, 0⟩, [.logStop robotId])

/-- `handleEmergency({robotId})`: reject if not connected, else publish the
zero twist and log the emergency-stop banner. -/
def handleEmergency (s : SvcState) (robotId : String) : SvcState × List Emit :=
  if !isRobotConnected s robotId then
    (s, [.errNotConnected robotId])
  else
    (publishCmdVel s robotId ⟨0, 0, 0⟩ ⟨0, 0, 0⟩, [.logEmergency robotId])

/-! ### Transparent relay (`ros-proxy.service.ts`) -/

/-- How `RosProxyService.handleConnection` disposes of an accepted client:
either `ws.close(code, reason)` before any forwarding is set up, or the
bidirectional forwarding loop is armed on the robot's transport. -/
inductive RelayOutcome where
  | closed (code : Nat) (reason : String)
  | forwarding (rosId : Nat)
deriving DecidableEq, Repr

/-- `handleConnection(ws, req)` validation sequence, in source order: missing
`robotId` query parameter → `close(1008, 'robotId required')`; no ROS
instance for the id → `close(1011, 'ROS instance not found')`; instance not
connected → `close(1011, 'Robot not connected to ROS')`; underlying socket
inaccessible → `close(1011, 'Internal Error')`; otherwise forwarding is
armed on the robot socket. -/
def handleConnection (s : SvcState) (robotIdParam : Option String) :
    RelayOutcome :=
  match robotIdParam with
  | none => .closed 1008 "robotId required"
  | some robotId =>
      match getRosInstance s robotId with
      | none => .closed 1011 "ROS instance not found"
      | some ros =>
          if !ros.isConnected then .closed 1011 "Robot not connected to ROS"
          else if !ros.hasSocket then .closed 1011 "Internal Error"
          else .forwarding ros.id

/-- The status a registered callback receives for each transport event,
read off the three handler bodies. -/
def statusOfEvent : TransportEvent → Status
  | .connection => .connected
  | .error => .error
  | .close => .disconnected

/-- The terminal (`disconnected`/`error`) status-callback deliveries for
`robotId`, in order. -/
def terminalStatuses (evs : List StatusRec) (robotId : String) : List Status :=
  (evs.filter
    (fun e => e.robotId = robotId ∧ e.status ≠ Status.connected)).map
    (fun e => e.status)

/-- A connected transport used by concrete witness states. -/
def demoRos : Ros := { id := 7, isConnected := true, hasSocket := true }

/-- A connected `RobotConnection` record with an empty topic map. -/
def demoConn : RobotConnection :=
  { ros := demoRos, topics := [], isConnected := true }

/-- A service state holding one connected robot `"r1"` (callback 42). -/
def demoState : SvcState :=
  { connections := [("r1", demoConn)]
    connectionCallbacks := [("r1", 42)]
    nextId := 8
    openedTransports := [7]
    closedTransports := []
    armed := []
    published := []
    statusEvents := [] }

/-- A `RobotConnection` whose transport has dropped (`ros.isConnected`
false), as the relay can observe between close and registry removal. -/
def demoConnDown : RobotConnection :=
  { ros := { id := 7, isConnected := false, hasSocket := true }
    topics := [], isConnected := false }

/-- A service state where `"r1"` has a record but its transport is down. -/
def demoStateDown : SvcState :=
  { demoState with connections := [("r1", demoConnDown)] }

/-- A service state with no connection for `"r1"` but a registered status
callback (id 42), as after `onConnectionStatusChange` and before connect. -/
def demoIdle : SvcState :=
  { connections := []
    connectionCallbacks := [("r1", 42)]
    nextId := 0
    openedTransports := []
    closedTransports := []
    armed := []
    published := []
    statusEvents := [] }

/-- The transport `connectToRobot demoIdle "r1"` constructs. -/
def demoStartedRos : Ros := { id := 0, isConnected := false, hasSocket := true }

/-- The state after `connectToRobot demoIdle "r1"` armed its handlers. -/
def demoIdle1 : SvcState :=
  { demoIdle with nextId := 1, openedTransports := [0] }

/-! ### Theorems -/

/-- C1. While a record for `robotId` is in the connection registry,
`connectToRobot` returns success (`.alreadyConnected`, i.e. `resolve(true)`)
immediately and leaves the state untouched — in particular
`openedTransports` and `connections` are unchanged, so no second transport
is opened and no second session created — and a second call does the same:
connect is idempotent while connected and both calls report success. -/
theorem connect_idempotent_while_connected (s : SvcState) (robotId : String)
    (c : RobotConnection) (h : mapGet s.connections robotId = some c) :
    connectToRobot s robotId = (s, ConnectStart.alreadyConnected) ∧
    connectToRobot (connectToRobot s robotId).1 robotId
      = (s, ConnectStart.alreadyConnected) := by
  have h1 : connectToRobot s robotId = (s, ConnectStart.alreadyConnected) := by
    simp [connectToRobot, h]
  exact ⟨h1, by rw [h1]; exact h1⟩

/-- C1 witness: in `demoState`, robot `"r1"` is registered and two
consecutive `connectToRobot` calls both return `.alreadyConnected` with the
state unchanged. -/
theorem connect_idempotent_while_connected_witness :
    mapGet demoState.connections "r1" = some demoConn ∧
    connectToRobot demoState "r1" = (demoState, ConnectStart.alreadyConnected) ∧
    connectToRobot (connectToRobot demoState "r1").1 "r1"
      = (demoState, ConnectStart.alreadyConnected) :=
  ⟨by decide,
    (connect_idempotent_while_connected demoState "r1" demoConn (by decide)).1,
    (connect_idempotent_while_connected demoState "r1" demoConn (by decide)).2⟩

/-- C8. `disconnectFromRobot` removes the session: afterwards
`isRobotConnected` is false and the registry lookup is absent; when a
record existed its transport was closed (`ros.close()`); when none
existed the call is a no-op leaving the whole state unchanged. -/
theorem disconnect_removes_session (s : SvcState) (robotId : String) :
    isRobotConnected (disconnectFromRobot s robotId) robotId = false ∧
    mapGet (disconnectFromRobot s robotId).connections robotId = none ∧
    (mapGet s.connections robotId = none → disconnectFromRobot s robotId = s) ∧
    (∀ c, mapGet s.connections robotId = some c →
      (disconnectFromRobot s robotId).closedTransports
        = s.closedTransports ++ [c.ros.id]) := by
  cases hm : mapGet s.connections robotId with
  | none =>
      refine ⟨?_, ?_, fun _ => by simp [disconnectFromRobot, hm],
        fun c hc => by simp [hm] at hc⟩
      · simp [disconnectFromRobot, hm, isRobotConnected]
      · simp [disconnectFromRobot, hm]
  | some c =>
      have hdel :
          mapGet (disconnectFromRobot s robotId).connections robotId = none := by
        simp [disconnectFromRobot, hm, mapGet_mapDelete_self]
      refine ⟨?_, hdel, fun hn => by simp [hm] at hn, fun c' hc' => ?_⟩
      · simp [isRobotConnected, hdel]
      · cases hc'
        simp [disconnectFromRobot, hm]

/-- C8 witness: disconnecting `"r1"` in `demoState` leaves it not connected
and absent from the registry, and closed its transport (id 7); disconnecting
the unknown `"zz"` is a no-op. -/
theorem disconnect_removes_session_witness :
    isRobotConnected (disconnectFromRobot demoState "r1") "r1" = false ∧
    mapGet (disconnectFromRobot demoState "r1").connections "r1" = none ∧
    (disconnectFromRobot demoState "r1").closedTransports = [7] ∧
    disconnectFromRobot demoState "zz" = demoState :=
  ⟨(disconnect_removes_session demoState "r1").1,
    (disconnect_removes_session demoState "r1").2.1,
    by
      have h :=
        (disconnect_removes_session demoState "r1").2.2.2 demoConn (by decide)
      simpa [demoState, demoConn, demoRos] using h,
    (disconnect_removes_session demoState "zz").2.2.1 (by decide)⟩

/-- On a connected record, `publishCmdVel` appends exactly one publish with
the given payload (whether the handle pre-exists or is lazily created). -/
theorem publishCmdVel_payloads (s : SvcState) (robotId : String)
    (linear angular : Vec3) (c : RobotConnection)
    (h : mapGet s.connections robotId = some c) (hc : c.isConnected = true) :
    (publishCmdVel s robotId linear angular).published.map Pub.payload
      = s.published.map Pub.payload ++ [⟨linear, angular⟩] := by
  cases ht : mapGet c.topics "web/cmd_vel" <;>
    simp [publishCmdVel, h, hc, ht]

/-- C2. Relay validation, in source order: a client with no `robotId`
parameter is closed with the bad-request signal (`1008`) whatever the
registry holds; a client naming a robot with no session, or whose session's
transport is not connected, is closed with the resource-unavailable signal
(`1011`). In every such case the outcome is a `.closed`, never
`.forwarding`, so no forwarding loop is armed. -/
theorem relay_validation_order (s : SvcState) :
    handleConnection s none = RelayOutcome.closed 1008 "robotId required" ∧
    (∀ robotId, getRosInstance s robotId = none →
      handleConnection s (some robotId)
        = RelayOutcome.closed 1011 "ROS instance not found") ∧
    (∀ robotId ros, getRosInstance s robotId = some ros →
      ros.isConnected = false →
      handleConnection s (some robotId)
        = RelayOutcome.closed 1011 "Robot not connected to ROS") := by
  refine ⟨rfl, fun robotId h => ?_, fun robotId ros h hc => ?_⟩
  · simp [handleConnection, h]
  · simp [handleConnection, h, hc]

/-- C2 witness: in `demoState` a client without a `robotId` is closed 1008;
one naming the unknown `"zz"` is closed 1011; in `demoStateDown`, where
`"r1"`'s transport is down, a client naming `"r1"` is closed 1011. -/
theorem relay_validation_order_witness :
    handleConnection demoState none
      = RelayOutcome.closed 1008 "robotId required" ∧
    handleConnection demoState (some "zz")
      = RelayOutcome.closed 1011 "ROS instance not found" ∧
    handleConnection demoStateDown (some "r1")
      = RelayOutcome.closed 1011 "Robot not connected to ROS" :=
  ⟨(relay_validation_order demoState).1,
    (relay_validation_order demoState).2.1 "zz" (by decide),
    (relay_validation_order demoStateDown).2.2 "r1" demoConnDown.ros
      (by decide) (by decide)⟩

/-- C5. For a connected robot, `handleJoystick` publishes exactly one motion
command with `linear = (y * MAX_LINEAR_SPEED, -x * MAX_LINEAR_SPEED, 0)` and
`angular = (0, 0, 0)` (with `MAX_LINEAR_SPEED = 1.0`), and logs the input. -/
theorem joystick_normalization (s : SvcState) (robotId : String) (x y : ℚ)
    (c : RobotConnection) (h : mapGet s.connections robotId = some c)
    (hc : c.isConnected = true) :
    (handleJoystick s robotId x y).1.published.map Pub.payload
      = s.published.map Pub.payload
        ++ [⟨⟨y * MAX_LINEAR_SPEED, -x * MAX_LINEAR_SPEED, 0⟩, ⟨0, 0, 0⟩⟩] ∧
    (handleJoystick s robotId x y).2 = [Emit.logJoystick robotId x y] := by
  have hconn : isRobotConnected s robotId = true := by
    simp [isRobotConnected, h, hc]
  constructor
  · simp only [handleJoystick, hconn, Bool.not_true, Bool.false_eq_true,
      if_false]
    exact publishCmdVel_payloads s robotId _ _ c h hc
  · simp [handleJoystick, hconn]

/-- C5 witness: joystick input `(x = 1/2, y = -1/5)` (i.e. `0.5`, `-0.2`) on
the connected `demoState` publishes `linear = (-1/5, -1/2, 0)`,
`angular = (0, 0, 0)` — the spec's `(-0.2, -0.5, 0)` scenario. -/
theorem joystick_normalization_witness :
    (handleJoystick demoState "r1" (1/2) (-(1/5))).1.published.map Pub.payload
      = [⟨⟨-(1/5), -(1/2), 0⟩, ⟨0, 0, 0⟩⟩] := by
  have h :=
    (joystick_normalization demoState "r1" (1/2) (-(1/5)) demoConn
      (by decide) (by decide)).1
  have hpub : demoState.published = [] := rfl
  rw [hpub] at h
  simpa [MAX_LINEAR_SPEED] using h

/-- C9. For a connected robot, `handleStop` and `handleEmergency` produce
identical service states — in particular the identical published payload,
the zero twist — and differ only in the log event emitted. -/
theorem stop_emergency_same_payload (s : SvcState) (robotId : String)
    (h : isRobotConnected s robotId = true) :
    (handleStop s robotId).1 = (handleEmergency s robotId).1 ∧
    (handleStop s robotId).1.published.map Pub.payload
      = s.published.map Pub.payload ++ [⟨⟨0, 0, 0⟩, ⟨0, 0, 0⟩⟩] ∧
    (handleStop s robotId).2 = [Emit.logStop robotId] ∧
    (handleEmergency s robotId).2 = [Emit.logEmergency robotId] := by
  obtain ⟨c, hm, hc⟩ :
      ∃ c, mapGet s.connections robotId = some c ∧ c.isConnected = true := by
    unfold isRobotConnected at h
    cases hm : mapGet s.connections robotId with
    | none => rw [hm] at h; exact absurd h (by simp)
    | some c => exact ⟨c, rfl, by rwa [hm] at h⟩
  refine ⟨by simp [handleStop, handleEmergency, h], ?_, by simp [handleStop, h],
    by simp [handleEmergency, h]⟩
  simp only [handleStop, h, Bool.not_true, Bool.false_eq_true, if_false]
  exact publishCmdVel_payloads s robotId _ _ c hm hc

/-- C9 witness: on the connected `demoState`, stop and emergency-stop yield
the same state, publish the zero twist, and emit distinct log events. -/
theorem stop_emergency_same_payload_witness :
    (handleStop demoState "r1").1 = (handleEmergency demoState "r1").1 ∧
    (handleStop demoState "r1").1.published.map Pub.payload
      = [⟨⟨0, 0, 0⟩, ⟨0, 0, 0⟩⟩] ∧
    (handleStop demoState "r1").2 ≠ (handleEmergency demoState "r1").2 := by
  have h := stop_emergency_same_payload demoState "r1" (by decide)
  refine ⟨h.1, ?_, ?_⟩
  · have h2 := h.2.1
    have hpub : demoState.published = [] := rfl
    rw [hpub] at h2
    simpa using h2
  · rw [h.2.2.1, h.2.2.2]
    simp

/-- C6. When no record exists for `robotId`, or its record is not in the
connected state, `callModeService` leaves the state untouched and its
outcome is `.thrownNotConnected`: the `async` function's throw rejects the
returned promise before any `ROSLIB.Service` object is constructed and
before any request reaches a transport, and the caller receives the
rejection rather than a crash. -/
theorem callService_rejects_not_connected (s : SvcState)
    (robotId command : String) (params : List (String × JVal))
    (h : isRobotConnected s robotId = false) :
    callModeService s robotId command params
      = (s, CallStart.thrownNotConnected) := by
  unfold isRobotConnected at h
  cases hm : mapGet s.connections robotId with
  | none => simp [callModeService, hm]
  | some c =>
      rw [hm] at h
      have hc : c.isConnected = false := by simpa using h
      simp [callModeService, hm, hc]

/-- C6 witness: calling the mode service for the unknown `"zz"` in
`demoState` returns the unchanged state and `.thrownNotConnected`. -/
theorem callService_rejects_not_connected_witness :
    callModeService demoState "zz" "set" [("mode", JVal.num 2)]
      = (demoState, CallStart.thrownNotConnected) :=
  callService_rejects_not_connected demoState "zz" "set"
    [("mode", JVal.num 2)] (by decide)

/-- C7. On a connected record with no `'web/cmd_vel'` handle yet,
`publishCmdVel` succeeds without any failure path: it creates the send-only
handle (identity `s.nextId`), stores it in the record's topic map, and sends
the payload through it; a second publish sends through the same stored
handle (same identity) and neither allocates a new object (`nextId`
unchanged) nor touches the topic maps (`connections` unchanged). -/
theorem publish_lazy_handle (s : SvcState) (robotId : String)
    (lin1 ang1 lin2 ang2 : Vec3) (c : RobotConnection)
    (h : mapGet s.connections robotId = some c) (hc : c.isConnected = true)
    (hnone : mapGet c.topics "web/cmd_vel" = none) :
    (publishCmdVel s robotId lin1 ang1).published
      = s.published ++ [⟨c.ros.id, "web/cmd_vel", s.nextId, ⟨lin1, ang1⟩⟩] ∧
    mapGet (publishCmdVel s robotId lin1 ang1).connections robotId
      = some { c with topics := mapSet c.topics "web/cmd_vel" (Topic.mk s.nextId "web/cmd_vel" "geometry_msgs/Twist") } ∧
    (publishCmdVel (publishCmdVel s robotId lin1 ang1) robotId lin2
        ang2).published
      = (publishCmdVel s robotId lin1 ang1).published
          ++ [⟨c.ros.id, "web/cmd_vel", s.nextId, ⟨lin2, ang2⟩⟩] ∧
    (publishCmdVel (publishCmdVel s robotId lin1 ang1) robotId lin2
        ang2).nextId
      = (publishCmdVel s robotId lin1 ang1).nextId ∧
    (publishCmdVel (publishCmdVel s robotId lin1 ang1) robotId lin2
        ang2).connections
      = (publishCmdVel s robotId lin1 ang1).connections := by
  have hs1 : publishCmdVel s robotId lin1 ang1 =
      { s with
          nextId := s.nextId + 1,
          connections := mapSet s.connections robotId { c with topics := mapSet c.topics "web/cmd_vel" (Topic.mk s.nextId "web/cmd_vel" "geometry_msgs/Twist") },
          published := s.published ++
            [⟨c.ros.id, "web/cmd_vel", s.nextId, ⟨lin1, ang1⟩⟩] } := by
    simp [publishCmdVel, h, hc, hnone]
  have hget1 : mapGet (publishCmdVel s robotId lin1 ang1).connections robotId
      = some { c with topics := mapSet c.topics "web/cmd_vel" (Topic.mk s.nextId "web/cmd_vel" "geometry_msgs/Twist") } := by
    rw [hs1]
    exact mapGet_mapSet_self _ _ _
  refine ⟨by rw [hs1], hget1, ?_, ?_, ?_⟩ <;>
    rw [hs1] <;>
    simp [publishCmdVel, mapGet_mapSet_self, hc]

/-- C7 witness: in `demoState` (empty topic map for `"r1"`) two successive
publishes both go out through the handle allocated by the first call
(identity 8), and the second call allocates nothing new. -/
theorem publish_lazy_handle_witness :
    (publishCmdVel demoState "r1" ⟨1, 0, 0⟩ ⟨0, 0, 0⟩).published
      = [⟨7, "web/cmd_vel", 8, ⟨⟨1, 0, 0⟩, ⟨0, 0, 0⟩⟩⟩] ∧
    (publishCmdVel (publishCmdVel demoState "r1" ⟨1, 0, 0⟩ ⟨0, 0, 0⟩) "r1"
        ⟨0, 1, 0⟩ ⟨0, 0, 0⟩).published
      = (publishCmdVel demoState "r1" ⟨1, 0, 0⟩ ⟨0, 0, 0⟩).published
          ++ [⟨7, "web/cmd_vel", 8, ⟨⟨0, 1, 0⟩, ⟨0, 0, 0⟩⟩⟩] ∧
    (publishCmdVel (publishCmdVel demoState "r1" ⟨1, 0, 0⟩ ⟨0, 0, 0⟩) "r1"
        ⟨0, 1, 0⟩ ⟨0, 0, 0⟩).nextId
      = (publishCmdVel demoState "r1" ⟨1, 0, 0⟩ ⟨0, 0, 0⟩).nextId := by
  have h := publish_lazy_handle demoState "r1" ⟨1, 0, 0⟩ ⟨0, 0, 0⟩
    ⟨0, 1, 0⟩ ⟨0, 0, 0⟩ demoConn (by decide) (by decide) (by decide)
  refine ⟨?_, ?_, h.2.2.2.1⟩
  · have h1 := h.1
    simpa [demoState, demoConn, demoRos] using h1
  · have h3 := h.2.2.1
    simpa [demoState, demoConn, demoRos] using h3

/-- C3 counterexample. In `demoState` (robot `"r1"` connected, nothing yet
subscribed), two `subscribeToTopic` calls for `/scan` with callbacks 101 and
102 leave two subscriptions armed on the transport, and an inbound `/scan`
message invokes both callbacks, not only the first — refuting both "exactly
one active SubscriptionHandle" and "only the first registered callback is
ever invoked". -/
theorem subscribe_not_idempotent_cex :
    dispatchMessage
        (subscribeToTopic
          (subscribeToTopic demoState "r1" "/scan" "sensor_msgs/LaserScan" 101)
          "r1" "/scan" "sensor_msgs/LaserScan" 102)
        demoRos.id "/scan" = [101, 102] ∧
    (subscribeToTopic
        (subscribeToTopic demoState "r1" "/scan" "sensor_msgs/LaserScan" 101)
        "r1" "/scan" "sensor_msgs/LaserScan" 102).armed.length = 2 := by
  constructor <;> decide

/-- C3 amended. `subscribeToTopic` performs no already-subscribed check: on
a connected record each call constructs a fresh handle, arms its callback on
the transport, and overwrites the topic-map entry. After two calls for the
same topic both callbacks are armed — an inbound message invokes first and
second callback in order — and the map holds the second call's handle
(identity `s.nextId + 1`), not the first unchanged. -/
theorem subscribe_arms_every_callback (s : SvcState)
    (robotId topicName messageType : String) (cb1 cb2 : Nat)
    (c : RobotConnection) (h : mapGet s.connections robotId = some c)
    (hc : c.isConnected = true) :
    dispatchMessage
        (subscribeToTopic
          (subscribeToTopic s robotId topicName messageType cb1)
          robotId topicName messageType cb2) c.ros.id topicName
      = dispatchMessage s c.ros.id topicName ++ [cb1, cb2] ∧
    (mapGet (subscribeToTopic
        (subscribeToTopic s robotId topicName messageType cb1)
        robotId topicName messageType cb2).connections robotId).map
        (fun c' => mapGet c'.topics topicName)
      = some (some (Topic.mk (s.nextId + 1) topicName messageType)) := by
  have hs1 : subscribeToTopic s robotId topicName messageType cb1 =
      { s with
          nextId := s.nextId + 1,
          armed := s.armed ++ [(c.ros.id, topicName, cb1)],
          connections := mapSet s.connections robotId { c with topics := mapSet c.topics topicName (Topic.mk s.nextId topicName messageType) } } := by
    simp [subscribeToTopic, h, hc]
  constructor
  · rw [hs1]
    simp [subscribeToTopic, mapGet_mapSet_self, hc, dispatchMessage,
      List.filter_append]
  · rw [hs1]
    simp [subscribeToTopic, mapGet_mapSet_self, hc]

/-- C3 amended witness: the two-subscription behaviour at the concrete
`demoState` input, via the amended theorem. -/
theorem subscribe_arms_every_callback_witness :
    dispatchMessage
        (subscribeToTopic
          (subscribeToTopic demoState "r1" "/odom" "nav_msgs/Odometry" 201)
          "r1" "/odom" "nav_msgs/Odometry" 202) demoConn.ros.id "/odom"
      = dispatchMessage demoState demoConn.ros.id "/odom" ++ [201, 202] ∧
    (mapGet (subscribeToTopic
        (subscribeToTopic demoState "r1" "/odom" "nav_msgs/Odometry" 201)
        "r1" "/odom" "nav_msgs/Odometry" 202).connections "r1").map
        (fun c' => mapGet c'.topics "/odom")
      = some (some (Topic.mk (demoState.nextId + 1) "/odom"
          "nav_msgs/Odometry")) :=
  subscribe_arms_every_callback demoState "r1" "/odom" "nav_msgs/Odometry"
    201 202 demoConn (by decide) (by decide)

theorem fireCallback_connectionCallbacks (s : SvcState) (robotId : String)
    (st : Status) :
    (fireCallback s robotId st).connectionCallbacks
      = s.connectionCallbacks := by
  unfold fireCallback
  cases mapGet s.connectionCallbacks robotId <;> rfl

theorem handleRosEvent_connectionCallbacks (s : SvcState) (robotId : String)
    (ros : Ros) (ev : TransportEvent) :
    ((handleRosEvent s robotId ros ev).1).connectionCallbacks
      = s.connectionCallbacks := by
  cases ev <;>
    first
      | exact fireCallback_connectionCallbacks _ _ _
      | · unfold handleRosEvent
          cases mapGet s.connections robotId <;>
            simp [fireCallback_connectionCallbacks]

theorem handleRosEvent_statusEvents (s : SvcState) (robotId : String)
    (ros : Ros) (ev : TransportEvent) (cb : Nat)
    (h : mapGet s.connectionCallbacks robotId = some cb) :
    ((handleRosEvent s robotId ros ev).1).statusEvents
      = s.statusEvents ++ [⟨robotId, cb, statusOfEvent ev⟩] := by
  cases ev
  · simp [handleRosEvent, fireCallback, h, statusOfEvent]
  · simp [handleRosEvent, fireCallback, h, statusOfEvent]
  · unfold handleRosEvent
    cases mapGet s.connections robotId <;>
      simp [fireCallback, h, statusOfEvent]

/-- With a callback registered for `robotId`, running a trace of transport
events appends exactly one status delivery per event. -/
theorem runEvents_statusEvents (s : SvcState) (robotId : String) (ros : Ros)
    (evs : List TransportEvent) (cb : Nat)
    (h : mapGet s.connectionCallbacks robotId = some cb) :
    (runEvents s robotId ros evs).statusEvents
      = s.statusEvents
          ++ evs.map (fun ev => StatusRec.mk robotId cb (statusOfEvent ev)) := by
  induction evs generalizing s with
  | nil => simp [runEvents]
  | cons ev rest ih =>
      have h' : mapGet ((handleRosEvent s robotId ros ev).1).connectionCallbacks
          robotId = some cb := by
        rw [handleRosEvent_connectionCallbacks]; exact h
      simp only [runEvents, ih _ h',
        handleRosEvent_statusEvents s robotId ros ev cb h, List.map_cons,
        List.append_assoc, List.singleton_append]

theorem terminalStatuses_map (robotId : String) (cb : Nat)
    (evs : List TransportEvent) :
    terminalStatuses
        (evs.map (fun ev => StatusRec.mk robotId cb (statusOfEvent ev)))
        robotId
      = (evs.filter (fun ev => ev ≠ TransportEvent.connection)).map
          statusOfEvent := by
  induction evs with
  | nil => rfl
  | cons ev rest ih =>
      cases ev <;> simp [terminalStatuses, statusOfEvent, List.filter_cons] <;>
        simpa [terminalStatuses] using ih

/-- C4 counterexample. Starting from `demoIdle` (callback 42 registered for
`"r1"`, nothing connected), `connectToRobot` arms the handlers of transport
`demoStartedRos`; the transport then emitting `connection`, `error`, `close`
— the ordinary WebSocket failure sequence after a successful open — makes
the status callback receive two terminal events, `error` then
`disconnected`, refuting "exactly one terminal event, never both, for every
termination path". -/
theorem status_terminal_twice_cex :
    connectToRobot demoIdle "r1"
      = (demoIdle1, ConnectStart.started demoStartedRos) ∧
    terminalStatuses
        (runEvents demoIdle1 "r1" demoStartedRos
          [TransportEvent.connection, TransportEvent.error,
            TransportEvent.close]).statusEvents "r1"
      = [Status.error, Status.disconnected] := by
  constructor <;> decide

/-- C4 amended. With a callback registered for `robotId`, the handlers
deliver exactly one status per transport event — `connected` for an open,
`error` for each transport error, `disconnected` for each transport close —
so a trace's terminal deliveries are its non-`connection` events in order:
a termination path of error followed by close delivers both terminal
events, and "exactly one" holds only for traces with a single terminal
transport event. -/
theorem status_callback_per_event (s : SvcState) (robotId : String)
    (ros : Ros) (evs : List TransportEvent) (cb : Nat)
    (h : mapGet s.connectionCallbacks robotId = some cb) :
    (runEvents s robotId ros evs).statusEvents
      = s.statusEvents
          ++ evs.map (fun ev => StatusRec.mk robotId cb (statusOfEvent ev)) ∧
    terminalStatuses (runEvents s robotId ros evs).statusEvents robotId
      = terminalStatuses s.statusEvents robotId
          ++ (evs.filter (fun ev => ev ≠ TransportEvent.connection)).map
              statusOfEvent := by
  refine ⟨runEvents_statusEvents s robotId ros evs cb h, ?_⟩
  rw [runEvents_statusEvents s robotId ros evs cb h]
  unfold terminalStatuses
  rw [List.filter_append, List.map_append]
  congr 1
  exact terminalStatuses_map robotId cb evs

/-- C4 amended witness: the per-event delivery at the concrete `demoIdle1`
trace, via the amended theorem. -/
theorem status_callback_per_event_witness :
    (runEvents demoIdle1 "r1" demoStartedRos
        [TransportEvent.connection, TransportEvent.error,
          TransportEvent.close]).statusEvents
      = [StatusRec.mk "r1" 42 Status.connected,
          StatusRec.mk "r1" 42 Status.error,
          StatusRec.mk "r1" 42 Status.disconnected] := by
  have h := (status_callback_per_event demoIdle1 "r1" demoStartedRos
    [TransportEvent.connection, TransportEvent.error, TransportEvent.close]
    42 (by decide)).1
  simpa [demoIdle1, demoIdle, statusOfEvent] using h

theorem mapGet_foldl_mapSet_of_not_mem {α : Type} (ps : List (String × α))
    (acc : List (String × α)) (k : String) (h : ∀ kv ∈ ps, kv.1 ≠ k) :
    mapGet (ps.foldl (fun m kv => mapSet m kv.1 kv.2) acc) k
      = mapGet acc k := by
  induction ps generalizing acc with
  | nil => rfl
  | cons hd tl ih =>
      simp only [List.foldl_cons]
      rw [ih _ (fun kv hkv => h kv (List.mem_cons_of_mem _ hkv))]
      exact mapGet_mapSet_ne acc hd.2 (h hd (List.mem_cons_self _ _))

theorem mapGet_foldl_mapSet_of_lookup {α : Type} (ps : List (String × α))
    (acc : List (String × α)) (k : String) (v : α)
    (hnd : (ps.map Prod.fst).Nodup) (hv : mapGet ps k = some v) :
    mapGet (ps.foldl (fun m kv => mapSet m kv.1 kv.2) acc) k = some v := by
  induction ps generalizing acc with
  | nil => simp [mapGet] at hv
  | cons hd tl ih =>
      obtain ⟨k', v'⟩ := hd
      rw [List.map_cons] at hnd
      obtain ⟨hnotmem, hnd'⟩ := List.nodup_cons.mp hnd
      by_cases hk : k' = k
      · subst hk
        have hv' : v' = v := by simpa [mapGet] using hv
        subst hv'
        have hmem : ∀ kv ∈ tl, kv.1 ≠ k' := by
          intro kv hkv heq
          have hmm := List.mem_map_of_mem Prod.fst hkv
          rw [heq] at hmm
          exact hnotmem hmm
        simp only [List.foldl_cons]
        rw [mapGet_foldl_mapSet_of_not_mem tl _ k' hmem]
        exact mapGet_mapSet_self acc k' v'
      · have hv' : mapGet tl k = some v := by simpa [mapGet, hk] using hv
        simp only [List.foldl_cons]
        exact ih _ hnd' hv'

/-- C10. `callModeService` builds its request as
`JSON.stringify({ command, ...params })`: the spread writes each `params`
property over the object after the `command` property, so whenever `params`
itself carries a `command` key its value wins — the serialized request's
`command` field equals `params.command` and the `commandKind` argument is
silently overridden. -/
theorem spread_overrides_commandKind (commandKind : String)
    (params : List (String × JVal)) (v : JVal)
    (hnd : (params.map Prod.fst).Nodup)
    (hv : mapGet params "command" = some v) :
    mapGet (buildRequestData commandKind params) "command" = some v :=
  mapGet_foldl_mapSet_of_lookup params _ "command" v hnd hv

/-- C10 witness: with `commandKind = "set"` and
`params = { command: "override", mode: 2 }`, the serialized request's
`command` field is `"override"`, not `"set"`. -/
theorem spread_overrides_commandKind_witness :
    mapGet (buildRequestData "set"
        [("command", JVal.str "override"), ("mode", JVal.num 2)]) "command"
      = some (JVal.str "override") ∧
    mapGet (buildRequestData "set"
        [("command", JVal.str "override"), ("mode", JVal.num 2)]) "command"
      ≠ some (JVal.str "set") :=
  ⟨spread_overrides_commandKind "set"
      [("command", JVal.str "override"), ("mode", JVal.num 2)]
      (JVal.str "override") (by decide) (by decide),
    by decide⟩

end RCS
